import Mathlib

/-!
Verification of the OTP-slot credential engine (src/src/fido/otp.c).

The C file is shallowly embedded below: stored slot data is a byte list
(each byte a `Nat`, kept below 256 by every operation that writes),
machine arithmetic is `Nat` with explicit `% 2 ^ w` where the C code can
overflow, and the two C-level failure modes that matter here (a fallible
external primitive, a NULL-pointer dereference) are made explicit with
`Option`.  Field accessors read at the byte offsets the packed
`otp_config_t` layout gives them.
-/

namespace PicoOtp

/-! ### Constants of otp.c -/

def FIXED_SIZE : Nat := 16
def KEY_SIZE : Nat := 16
def UID_SIZE : Nat := 6
def ACC_CODE_SIZE : Nat := 6

def CONFIG1_VALID : Nat := 0x01
def CONFIG2_VALID : Nat := 0x02
def CONFIG1_TOUCH : Nat := 0x04
def CONFIG2_TOUCH : Nat := 0x08

def APPEND_CR : Nat := 0x20
def OATH_HOTP : Nat := 0x40

def SHORT_TICKET : Nat := 0x02
def STATIC_TICKET : Nat := 0x20
def OATH_HOTP8 : Nat := 0x02

/-- `sizeof(otp_config_t)`: the struct is `__attribute__((packed))`, so its
size is the plain sum of the field sizes in declaration order:
`fixed_data[16]`, `uid[6]`, `aes_key[16]`, `acc_code[6]`, `fixed_size`,
`ext_flags`, `tkt_flags`, `cfg_flags`, `rfu[2]`, `crc` (a `uint16_t`). -/
def otp_config_size : Nat :=
  FIXED_SIZE + UID_SIZE + KEY_SIZE + ACC_CODE_SIZE + 1 + 1 + 1 + 1 + 2 + 2

/-! ### Field accessors on the raw stored bytes

The C code reads fields through an `otp_config_t *` cast of the raw file
data, so each accessor reads at the packed offset of its field:
`fixed_data` at 0, `uid` at 16, `aes_key` at 22, `acc_code` at 38,
`fixed_size` at 44, `ext_flags` at 45, `tkt_flags` at 46, `cfg_flags`
at 47, `rfu` at 48, `crc` at 50. -/

def fixed_data (d : List Nat) : List Nat := d.take FIXED_SIZE

def uid_byte (d : List Nat) (i : Nat) : Nat := d.getD (16 + i) 0

def aes_key (d : List Nat) : List Nat := (d.drop 22).take KEY_SIZE

def acc_code (d : List Nat) : List Nat := (d.drop 38).take ACC_CODE_SIZE

def fixed_size (d : List Nat) : Nat := d.getD 44 0

def tkt_flags (d : List Nat) : Nat := d.getD 46 0

def cfg_flags (d : List Nat) : Nat := d.getD 47 0

def rfu_byte (d : List Nat) (i : Nat) : Nat := d.getD (48 + i) 0

/-- A byte of the optional trailing counter extension (`data + otp_config_size`). -/
def ext_byte (d : List Nat) (i : Nat) : Nat := d.getD (otp_config_size + i) 0

/-! ### Applet state

The two dynamic files `EF_OTP_SLOT1` / `EF_OTP_SLOT2` and the process-wide
`config_seq` (a `uint8_t`).  `none` models an absent file, `some d` a file
whose stored data is `d`. -/

structure OtpState where
  slot1 : Option (List Nat)
  slot2 : Option (List Nat)
  config_seq : Nat
deriving DecidableEq, Repr

/-- `file_has_data`: the file exists and holds at least one byte. -/
def file_has_data : Option (List Nat) → Bool
  | none => false
  | some d => decide (0 < d.length)

/-- The slot a configure sub-selector addresses: P1 = 1 is slot 1,
P1 = 3 (and, in `otp_button_pressed`, any slot id other than 1) is slot 2. -/
def getSlot (st : OtpState) (p1 : Nat) : Option (List Nat) :=
  if p1 = 1 then st.slot1 else st.slot2

def setSlot (st : OtpState) (p1 : Nat) (v : Option (List Nat)) : OtpState :=
  if p1 = 1 then { st with slot1 := v } else { st with slot2 := v }

/-! ### Status words returned by the command path -/

inductive SW where
  | ok
  | cla_not_supported
  | ins_not_supported
  | incorrect_p1p2
  | wrong_data
  | security_status
deriving DecidableEq, Repr

/-! ### otp_select / otp_status -/

/-- The `config_seq` recomputation in `otp_select` (otp.c lines 114-120):
1 when either slot file has data, else 0. -/
def otp_select_seq (st : OtpState) : OtpState :=
  { st with config_seq :=
      if file_has_data st.slot1 || file_has_data st.slot2 then 1 else 0 }

/-- `otp_status` (otp.c lines 211-224).  `res` is the `res_APDU` byte array
(index to byte); the function sets `res_APDU_size` to 0, writes the six
status bytes at indices 1..6 (index 0 is not touched) and the result pair is
(the new buffer, the final `res_APDU_size`).  Byte writes truncate to
`uint8_t`. -/
def otp_status (vmaj vmin : Nat) (st : OtpState) (res : Nat → Nat) :
    (Nat → Nat) × Nat :=
  let caps : Nat := (CONFIG2_TOUCH ||| CONFIG1_TOUCH)
      ||| (if file_has_data st.slot1 then CONFIG1_VALID else 0)
      ||| (if file_has_data st.slot2 then CONFIG2_VALID else 0)
  let r1 := Function.update res 1 (vmaj % 256)
  let r2 := Function.update r1 2 (vmin % 256)
  let r3 := Function.update r2 3 0
  let r4 := Function.update r3 4 (st.config_seq % 256)
  let r5 := Function.update r4 5 caps
  let r6 := Function.update r5 6 0
  (r6, 0)

/-! ### cmd_otp (otp.c lines 226-270)

The response-buffer side effects (the status bytes on the success paths, the
4-byte board identifier for P1 = 0x10, both external to the slot state) do
not touch the slots or `config_seq`; the transformer below returns the new
slot state together with the status word, which is `SW.ok` exactly on the
paths where the C code returns `otp_status()` or `SW_OK()`. -/

def cmd_otp (st : OtpState) (p1 p2 : Nat) (data : List Nat) : OtpState × SW :=
  if p2 ≠ 0 then (st, SW.incorrect_p1p2)
  else if p1 = 1 ∨ p1 = 3 then
    if rfu_byte data 0 ≠ 0 ∨ rfu_byte data 1 ≠ 0 then (st, SW.wrong_data)
    else
      let ef := getSlot st p1
      if file_has_data ef ∧
          acc_code (ef.getD []) ≠ (data.drop otp_config_size).take ACC_CODE_SIZE then
        (st, SW.security_status)
      else if (data.take otp_config_size).any (fun b => b != 0) then
        let st2 := setSlot st p1 (some (data.take otp_config_size))
        ({ st2 with config_seq := (st.config_seq + 1) % 256 }, SW.ok)
      else
        let st2 := setSlot st p1 none
        let st3 := if ¬ file_has_data st2.slot1 ∧ ¬ file_has_data st2.slot2
                   then { st2 with config_seq := 0 } else st2
        (st3, SW.ok)
  else (st, SW.ok)

/-- `otp_process_apdu` (otp.c lines 287-298): class byte must be 0; the only
wired instruction is `INS_OTP` = 0x01, handled by `cmd_otp`. -/
def otp_process_apdu (st : OtpState) (cla ins p1 p2 : Nat) (data : List Nat) :
    OtpState × SW :=
  if cla ≠ 0 then (st, SW.cla_not_supported)
  else if ins = 1 then cmd_otp st p1 p2 data
  else (st, SW.ins_not_supported)

/-! ### otp_button_pressed (otp.c lines 133-200) -/

/-- Big-endian serialization of the 64-bit moving factor, as the C code
builds `chal` / `new_chal`: each entry is an assignment into a `uint8_t`,
hence the `% 256`. -/
def be64 (n : Nat) : List Nat :=
  [(n >>> 56) % 256, (n >>> 48) % 256, (n >>> 40) % 256, (n >>> 32) % 256,
   (n >>> 24) % 256, (n >>> 16) % 256, (n >>> 8) % 256, n % 256]

/-- The value `imf |= *p << 24` actually contributes: `*p` (a `uint8_t`) is
promoted to a 32-bit signed `int`, so for `*p ≥ 0x80` the shifted value has
the sign bit set and the conversion to `uint64_t` in the `|=` sign-extends
it, OR-ing ones into the whole upper half.  (The three lower shifts stay
positive and convert verbatim; the four upper shifts carry an explicit
`(uint64_t)` cast in the C code.) -/
def sext32 (x : Nat) : Nat :=
  if x < 2 ^ 31 then x else 0xFFFFFFFF00000000 ||| x

/-- The moving-factor resolution of `otp_button_pressed` (otp.c lines
143-157): a base-size record derives it from `uid[4]`/`uid[5]`; otherwise the
trailing extension bytes are assembled, with the sign-extension effect of the
`<< 24` term (see `sext32`). -/
def imf_of (d : List Nat) : Nat :=
  if d.length = otp_config_size then
    ((uid_byte d 4 <<< 8 ||| uid_byte d 5) <<< 4)
  else
    (ext_byte d 0 <<< 56) ||| (ext_byte d 1 <<< 48) ||| (ext_byte d 2 <<< 40)
      ||| (ext_byte d 3 <<< 32) ||| sext32 (ext_byte d 4 <<< 24)
      ||| (ext_byte d 5 <<< 16) ||| (ext_byte d 6 <<< 8) ||| ext_byte d 7

/-- The 18-byte key input built at otp.c lines 140-142:
`tmp_key[0] = 0x01`, `tmp_key + 2` receives the 16 stored key bytes, and
`tmp_key[1]` is **never assigned** — its content is whatever byte `g` the
stack held there (an indeterminate value in C). -/
def tmp_key_of (g : Nat) (d : List Nat) : List Nat :=
  [0x01, g % 256] ++ aes_key d

/-- `sprintf("%0*lu")`: `w` ASCII digit bytes of `n` (`n < 10 ^ w` on every
call site, since `n` was reduced modulo the base first). -/
def zeroPad (w n : Nat) : List Nat :=
  (List.range w).map (fun i => 0x30 + (n / 10 ^ (w - 1 - i)) % 10)

/-- What one button press produces: the bytes the slot file holds afterwards
and the bytes handed to the keyboard buffer, in order. -/
structure PressRes where
  stored : List Nat
  keys : List Nat
deriving DecidableEq, Repr

/-- `otp_button_pressed` (otp.c lines 133-200) on the addressed slot's file.

* `slot = none` (no stored file): `file_get_data` yields NULL and the very
  next line dereferences it (`otp_config->tkt_flags`) — undefined behavior,
  modelled as `none`.
* HOTP branch (`tkt_flags & OATH_HOTP`): the external `calculate_oath` is the
  `oracle` argument (key input, 8-byte challenge ↦ the 32-bit word its
  response bytes 2..5 assemble to, or `none` for a non-`CCID_OK` return);
  on success the 6- or 8-digit code is emitted and the base record plus the
  incremented counter is written back; the CR is appended whether or not the
  oracle succeeded, exactly as in the C code.
* static branch (`cfg_flags & (SHORT_TICKET | STATIC_TICKET)`): a short
  ticket halves `fixed_size` *in place* (the write goes through the pointer
  into the stored data) and emits that many leading record bytes.
* otherwise: the explicit empty `else` — no output, no mutation.

`g` is the indeterminate byte in `tmp_key[1]` (see `tmp_key_of`). -/
def otp_button_pressed (g : Nat) (oracle : List Nat → List Nat → Option Nat)
    (slot : Option (List Nat)) : Option PressRes :=
  match slot with
  | none => none
  | some data =>
    if tkt_flags data &&& OATH_HOTP ≠ 0 then
      let imf := imf_of data
      let r :=
        match oracle (tmp_key_of g data) (be64 imf) with
        | some n =>
          let base := if cfg_flags data &&& OATH_HOTP8 ≠ 0 then 100000000 else 1000000
          let w := if cfg_flags data &&& OATH_HOTP8 ≠ 0 then 8 else 6
          let number := (n % 2 ^ 32) % base
          let imf2 := (imf + 1) % 2 ^ 64
          PressRes.mk (data.take otp_config_size ++ be64 imf2) (zeroPad w number)
        | none => PressRes.mk data []
      some (PressRes.mk r.stored
        (r.keys ++ (if tkt_flags data &&& APPEND_CR ≠ 0 then [0x0D] else [])))
    else if cfg_flags data &&& SHORT_TICKET ≠ 0 ∨ cfg_flags data &&& STATIC_TICKET ≠ 0 then
      let fs := if cfg_flags data &&& SHORT_TICKET ≠ 0 then fixed_size data / 2
                else fixed_size data
      let data2 := if cfg_flags data &&& SHORT_TICKET ≠ 0 then data.set 44 fs else data
      some (PressRes.mk data2
        (data2.take fs ++ (if tkt_flags data &&& APPEND_CR ≠ 0 then [0x28] else [])))
    else
      some (PressRes.mk data [])

/-- Modelled from the spec: the trailing 8 extension bytes "interpreted
verbatim as a big-endian unsigned integer" — the value the specification says
the moving factor equals when the extension is present. -/
def imf_spec_verbatim (ext : List Nat) : Nat :=
  ext.foldl (fun a b => a * 256 + b) 0

/-! ### Concrete records used by witnesses and counterexamples -/

/-- A minimal HOTP-mode base record: 52 bytes, `tkt_flags` (offset 46)
= `OATH_HOTP`, everything else zero. -/
def hotpRec : List Nat := List.replicate 46 0 ++ [0x40] ++ List.replicate 5 0

/-- A non-empty slot-1 record whose `acc_code` (offsets 38..43) is six 9s. -/
def rec5 : List Nat :=
  [9] ++ List.replicate 37 0 ++ [9, 9, 9, 9, 9, 9] ++ List.replicate 8 0

/-- A configure payload (52 + 6 bytes) whose `rfu[0]` (offset 48) is nonzero
and whose supplied access code (offsets 52..57) is all-zero. -/
def data5 : List Nat := List.replicate 48 0 ++ [7, 0, 0, 0] ++ List.replicate 6 0

/-- A non-empty slot-2 record with an all-zero `acc_code`. -/
def rec7b : List Nat := [5] ++ List.replicate 51 0

def exSt7 : OtpState := OtpState.mk (some rec5) (some rec7b) 1

/-- A static-ticket record: `fixed_data` = 101..116, `fixed_size` = 16,
`tkt_flags` = `APPEND_CR`, `cfg_flags` = `SHORT_TICKET`. -/
def rec9 : List Nat :=
  (List.range 16).map (fun i => i + 101) ++ List.replicate 28 0
    ++ [16, 0, 0x20, 0x02, 0, 0, 0, 0]

/-- A configure payload writing a record whose first byte is 1. -/
def w1data : List Nat := 1 :: List.replicate 57 0

/-! ### Helper lemmas -/

theorem take_set_of_le (l : List Nat) (i n v : Nat) (h : n ≤ i) :
    (l.set i v).take n = l.take n := by
  apply List.ext_getElem
  · simp
  · intro k h1 h2
    have hk : k < n := by
      have h3 := List.length_take_le n (l.set i v)
      omega
    simp only [List.getElem_take, List.getElem_set]
    rw [if_neg (show ¬ i = k by omega)]

/-! ### Claim C1 -/

/-- C1 counterexample: the packed `otp_config_t` record is not 46 bytes —
its field sizes sum to 52. -/
theorem c1_size_counterexample : otp_config_size ≠ 46 := by decide

/-- C1 (amended): the persisted base slot record is exactly **52** bytes
(16 + 6 + 16 + 6 + 1 + 1 + 1 + 1 + 2 + 2, packed with no padding), and every
configure command to an empty slot whose payload has zero reserved bytes and
a non-zero base record stores exactly the first 52 payload bytes, so a
subsequent read of the slot returns exactly that base record. -/
theorem c1_roundtrip (st : OtpState) (p1 : Nat) (data : List Nat)
    (hp : p1 = 1 ∨ p1 = 3)
    (hempty : file_has_data (getSlot st p1) = false)
    (hrfu : rfu_byte data 0 = 0 ∧ rfu_byte data 1 = 0)
    (hnz : (data.take otp_config_size).any (fun b => b != 0) = true) :
    otp_config_size = 52 ∧
    getSlot (cmd_otp st p1 0 data).1 p1 = some (data.take otp_config_size) := by
  refine ⟨by decide, ?_⟩
  rcases hp with rfl | rfl <;> simp [getSlot] at hempty <;>
    simp [cmd_otp, getSlot, setSlot, hrfu.1, hrfu.2, hnz, hempty]

/-- C1 witness: a concrete non-zero payload written to empty slot 1 is read
back exactly. -/
theorem c1_witness :
    getSlot (cmd_otp (OtpState.mk none none 0) 1 0 w1data).1 1
      = some (w1data.take otp_config_size) :=
  (c1_roundtrip (OtpState.mk none none 0) 1 w1data (Or.inl rfl) (by decide)
    (by decide) (by decide)).2

/-! ### Claim C3 -/

/-- C3: on an HOTP press with a counter extension present, the code does
**not** read the trailing 8 bytes verbatim: `imf |= *p << 24` promotes the
byte to a signed `int`, and for an extension whose fifth byte is ≥ 0x80 the
conversion back to `uint64_t` sign-extends, OR-ing 0xFFFFFFFF into the upper
half.  At extension `[0,0,0,0,0x80,0,0,0]` the code resolves
0xFFFFFFFF80000000 where the spec's verbatim big-endian reading is
0x80000000. -/
theorem c3_sign_extension :
    imf_of (hotpRec ++ [0, 0, 0, 0, 0x80, 0, 0, 0]) = 0xFFFFFFFF80000000 ∧
    imf_spec_verbatim [0, 0, 0, 0, 0x80, 0, 0, 0] = 0x80000000 ∧
    imf_of (hotpRec ++ [0, 0, 0, 0, 0x80, 0, 0, 0])
      ≠ imf_spec_verbatim [0, 0, 0, 0, 0x80, 0, 0, 0] := by decide

/-! ### Claim C4 -/

/-- C4: the 18-byte key input handed to the OATH primitive has first byte
0x01 and its last 16 bytes are the stored key, but its second byte is the
**uninitialized** stack byte (`tmp_key[1]` is never assigned): with stack
residue 0x37 the key input's second byte is 0x37, not 0x00. -/
theorem c4_uninitialized_key_byte :
    tmp_key_of 0x37 hotpRec = [0x01, 0x37] ++ List.replicate 16 0 ∧
    (tmp_key_of 0x37 hotpRec).getD 1 0 ≠ 0 ∧
    (tmp_key_of 0x37 hotpRec).length = KEY_SIZE + 2 := by decide

/-! ### Claim C6 -/

/-- C6: a button press on a slot whose file is absent is **not** a clean
no-op: `file_get_data` returns NULL and the immediately following
`otp_config->tkt_flags` dereferences it — undefined behavior, modelled as
`none` — for every oracle and every stack residue. -/
theorem c6_null_deref (g : Nat) (oracle : List Nat → List Nat → Option Nat) :
    otp_button_pressed g oracle none = none := rfl

/-! ### Claim C10 -/

/-- C10: a command with class 0, instruction 0x01, P2 = 0 and an
unrecognized P1 (not 1, 3 or 0x10) returns the generic success status and
changes neither slot nor the sequence counter. -/
theorem c10_unknown_p1 (st : OtpState) (p1 : Nat) (data : List Nat)
    (h1 : p1 ≠ 1) (h3 : p1 ≠ 3) (_h16 : p1 ≠ 0x10) :
    otp_process_apdu st 0 1 p1 0 data = (st, SW.ok) := by
  simp [otp_process_apdu, cmd_otp, h1, h3]

/-- C10 witness: P1 = 5 on a concrete state. -/
theorem c10_witness :
    otp_process_apdu (OtpState.mk (some rec5) none 1) 0 1 5 0 []
      = (OtpState.mk (some rec5) none 1, SW.ok) :=
  c10_unknown_p1 (OtpState.mk (some rec5) none 1) 5 [] (by decide) (by decide)
    (by decide)

/-! ### Claim C5 -/

/-- C5 counterexample: a configure command to non-empty slot 1 whose supplied
access code differs from the stored one, but whose payload has a nonzero
reserved byte, is answered with `wrong_data`, not the security-status error —
the reserved-byte check runs before the access-code check. -/
theorem c5_counterexample :
    file_has_data (OtpState.mk (some rec5) none 1).slot1 = true ∧
    acc_code rec5 ≠ (data5.drop otp_config_size).take ACC_CODE_SIZE ∧
    (cmd_otp (OtpState.mk (some rec5) none 1) 1 0 data5).2 ≠ SW.security_status ∧
    (cmd_otp (OtpState.mk (some rec5) none 1) 1 0 data5).2 = SW.wrong_data := by
  decide

/-- C5 (amended): a configure command to a non-empty slot whose payload has
**zero reserved bytes** and whose supplied access code differs from the
stored one returns the security-status error and changes nothing: neither
slot's bytes nor the sequence counter. -/
theorem c5_access_denied (st : OtpState) (p1 : Nat) (data : List Nat)
    (hp : p1 = 1 ∨ p1 = 3)
    (hrfu : rfu_byte data 0 = 0 ∧ rfu_byte data 1 = 0)
    (hdata : file_has_data (getSlot st p1) = true)
    (hacc : acc_code ((getSlot st p1).getD [])
      ≠ (data.drop otp_config_size).take ACC_CODE_SIZE) :
    cmd_otp st p1 0 data = (st, SW.security_status) := by
  rcases hp with rfl | rfl <;> simp [getSlot] at hdata hacc <;>
    simp [cmd_otp, getSlot, hrfu.1, hrfu.2, hdata, hacc]

/-- C5 witness: an otherwise-valid all-zero payload presented to slot 1
(stored access code six 9s, supplied access code six 0s) is rejected with
the security-status error and the state is unchanged. -/
theorem c5_witness :
    cmd_otp (OtpState.mk (some rec5) none 1) 1 0 (List.replicate 58 0)
      = (OtpState.mk (some rec5) none 1, SW.security_status) :=
  c5_access_denied (OtpState.mk (some rec5) none 1) 1 (List.replicate 58 0)
    (Or.inl rfl) (by decide) (by decide) (by decide)

/-! ### Claim C7 -/

/-- C7 counterexample: deleting slot 2 (all-zero base record, matching
access code) while slot 1 still holds data is a successful mutating command
— it returns success and empties slot 2 — yet the sequence counter is not
incremented by 1: it stays at its old value. -/
theorem c7_counterexample :
    file_has_data exSt7.slot2 = true ∧
    (cmd_otp exSt7 3 0 (List.replicate 58 0)).2 = SW.ok ∧
    (cmd_otp exSt7 3 0 (List.replicate 58 0)).1.slot2 = none ∧
    (cmd_otp exSt7 3 0 (List.replicate 58 0)).1.config_seq = exSt7.config_seq ∧
    (cmd_otp exSt7 3 0 (List.replicate 58 0)).1.config_seq
      ≠ exSt7.config_seq + 1 := by
  decide

/-- C7 (amended): at applet activation the sequence counter is recomputed as
1 if either slot is non-empty and 0 otherwise; a successful configure
**write** increments it by exactly 1 (modulo 256 — it is a `uint8_t`); a
successful **delete** does not increment it: it leaves it unchanged unless
the deletion leaves both slots empty, in which case it is reset to 0. -/
theorem c7_sequence_counter (st : OtpState) (p1 : Nat) (data : List Nat)
    (hp : p1 = 1 ∨ p1 = 3)
    (hrfu : rfu_byte data 0 = 0 ∧ rfu_byte data 1 = 0)
    (hacc : file_has_data (getSlot st p1) = false ∨
      acc_code ((getSlot st p1).getD [])
        = (data.drop otp_config_size).take ACC_CODE_SIZE) :
    (∀ s : OtpState, (otp_select_seq s).config_seq
        = if file_has_data s.slot1 || file_has_data s.slot2 then 1 else 0) ∧
    ((data.take otp_config_size).any (fun b => b != 0) = true →
      (cmd_otp st p1 0 data).1.config_seq = (st.config_seq + 1) % 256) ∧
    ((data.take otp_config_size).any (fun b => b != 0) = false →
      (cmd_otp st p1 0 data).1.config_seq
        = if file_has_data (setSlot st p1 none).slot1
            || file_has_data (setSlot st p1 none).slot2
          then st.config_seq else 0) := by
  refine ⟨fun s => rfl, fun hnz => ?_, fun hz => ?_⟩
  · rcases hp with rfl | rfl <;> rcases hacc with h | h <;>
      simp [getSlot] at h <;>
      simp [cmd_otp, getSlot, setSlot, hrfu.1, hrfu.2, hnz, h]
  · rcases hp with rfl | rfl <;> rcases hacc with h | h <;>
      simp [getSlot] at h <;>
      simp [cmd_otp, getSlot, setSlot, hrfu.1, hrfu.2, hz, h, file_has_data] <;>
      by_cases hb1 : file_has_data st.slot1 <;>
      by_cases hb2 : file_has_data st.slot2 <;>
      simp_all [file_has_data]

/-- C7 witness: configuring empty slot 1 with a concrete non-zero record
takes the sequence counter from 0 to 1. -/
theorem c7_witness :
    (cmd_otp (OtpState.mk none none 0) 1 0 w1data).1.config_seq = 1 :=
  ((c7_sequence_counter (OtpState.mk none none 0) 1 w1data (Or.inl rfl)
      (by decide) (Or.inl (by decide))).2.1 (by decide)).trans (by decide)

/-! ### Claim C8 -/

/-- C8 counterexample: `otp_status` sets the response-size register to 0 and
never writes the byte at offset 0, so its response is not a ≥ 6-byte payload
whose first byte is the protocol major version: with major version 5 and a
buffer previously holding 0xAA everywhere, the size is 0 (not ≥ 6) and the
byte at offset 0 stays 0xAA. -/
theorem c8_counterexample :
    (otp_status 5 3 (OtpState.mk (some rec5) none 1) (fun _ => 0xAA)).2 = 0 ∧
    ¬ 6 ≤ (otp_status 5 3 (OtpState.mk (some rec5) none 1) (fun _ => 0xAA)).2 ∧
    (otp_status 5 3 (OtpState.mk (some rec5) none 1) (fun _ => 0xAA)).1 0 = 0xAA ∧
    (otp_status 5 3 (OtpState.mk (some rec5) none 1) (fun _ => 0xAA)).1 0 ≠ 5 := by
  refine ⟨rfl, by decide, rfl, by decide⟩

/-- C8 (amended): every status invocation writes the six bytes
[major][minor][0][sequence-counter][capability][0] at offsets **1..6** of
the response buffer — offset 0 is left untouched and the response-size
register is set to 0 — and the capability byte always has the two
touch-required bits (bits 2 and 3) set and has the slot-1 (bit 0) and
slot-2 (bit 1) presence bits set iff the corresponding slot holds data. -/
theorem c8_status_layout (vmaj vmin : Nat) (st : OtpState) (res : Nat → Nat) :
    (otp_status vmaj vmin st res).2 = 0 ∧
    (otp_status vmaj vmin st res).1 0 = res 0 ∧
    (otp_status vmaj vmin st res).1 1 = vmaj % 256 ∧
    (otp_status vmaj vmin st res).1 2 = vmin % 256 ∧
    (otp_status vmaj vmin st res).1 3 = 0 ∧
    (otp_status vmaj vmin st res).1 4 = st.config_seq % 256 ∧
    (otp_status vmaj vmin st res).1 6 = 0 ∧
    Nat.testBit ((otp_status vmaj vmin st res).1 5) 2 = true ∧
    Nat.testBit ((otp_status vmaj vmin st res).1 5) 3 = true ∧
    Nat.testBit ((otp_status vmaj vmin st res).1 5) 0 = file_has_data st.slot1 ∧
    Nat.testBit ((otp_status vmaj vmin st res).1 5) 1 = file_has_data st.slot2 := by
  cases h1 : file_has_data st.slot1 <;> cases h2 : file_has_data st.slot2 <;>
    simp [otp_status, Function.update, h1, h2] <;>
    refine ⟨by decide, by decide, by decide, by decide⟩

/-! ### Claim C9 -/

/-- C9 counterexample: a short-ticket slot whose `tkt_flags` has the
CR-append bit set emits the halved `fixed_data` prefix **followed by the
terminator byte 0x28**, so the emitted bytes are not exactly the first
`fixed_size / 2` bytes of `fixed_data`. -/
theorem c9_counterexample :
    (otp_button_pressed 0 (fun _ _ => some 0) (some rec9)).map PressRes.keys
      = some ((fixed_data rec9).take (fixed_size rec9 / 2) ++ [0x28]) ∧
    (otp_button_pressed 0 (fun _ _ => some 0) (some rec9)).map PressRes.keys
      ≠ some ((fixed_data rec9).take (fixed_size rec9 / 2)) := by
  decide

/-- C9 (amended): for every button press on a non-HOTP slot whose
`cfg_flags` has the short-ticket bit set and whose stored `fixed_size` at
the time of the press is at most 32 (so the halved prefix lies within
`fixed_data`), the emitted bytes are exactly the first `fixed_size / 2`
(integer floor) bytes of `fixed_data`, followed by exactly one terminator
byte 0x28 when the CR-append bit of `tkt_flags` is set and by nothing
otherwise. -/
theorem c9_short_ticket (g : Nat) (oracle : List Nat → List Nat → Option Nat)
    (data : List Nat)
    (hh : tkt_flags data &&& OATH_HOTP = 0)
    (hs : cfg_flags data &&& SHORT_TICKET ≠ 0)
    (hfs : fixed_size data ≤ 2 * FIXED_SIZE) :
    (otp_button_pressed g oracle (some data)).map PressRes.keys
      = some ((fixed_data data).take (fixed_size data / 2)
          ++ (if tkt_flags data &&& APPEND_CR ≠ 0 then [0x28] else [])) := by
  have hcut : (data.set 44 (fixed_size data / 2)).take (fixed_size data / 2)
      = (fixed_data data).take (fixed_size data / 2) := by
    rw [take_set_of_le _ _ _ _ (by simp only [FIXED_SIZE] at hfs ⊢; omega)]
    rw [fixed_data, List.take_take,
      min_eq_left (by simp only [FIXED_SIZE] at hfs ⊢; omega)]
  simp [otp_button_pressed, hh, hs, hcut]

/-- C9 witness: the concrete short-ticket record with `fixed_size` 16 and
the CR-append bit set emits the first 8 `fixed_data` bytes plus 0x28. -/
theorem c9_witness :
    (otp_button_pressed 0 (fun _ _ => none) (some rec9)).map PressRes.keys
      = some ((fixed_data rec9).take (fixed_size rec9 / 2)
          ++ (if tkt_flags rec9 &&& APPEND_CR ≠ 0 then [0x28] else [])) :=
  c9_short_ticket 0 (fun _ _ => none) rec9 (by decide) (by decide) (by decide)

/-! ### Claim C2 -/

/-- C2: consecutive successful HOTP presses do **not** always increase the
persisted moving factor by exactly 1 each.  Starting from stored extension
0x000000007FFFFFFF, the first press persists 0x0000000080000000, but the
second press re-reads that value through the sign-extending parse as
0xFFFFFFFF80000000 and persists 0xFFFFFFFF80000001 — after two presses the
persisted factor has grown by 0xFFFFFFFF00000002, not by 2. -/
theorem c2_counter_jump :
    (otp_button_pressed 0 (fun _ _ => some 0)
        (some (hotpRec ++ [0, 0, 0, 0, 0x7F, 0xFF, 0xFF, 0xFF]))).map PressRes.stored
      = some (hotpRec ++ [0, 0, 0, 0, 0x80, 0, 0, 0]) ∧
    (otp_button_pressed 0 (fun _ _ => some 0)
        (some (hotpRec ++ [0, 0, 0, 0, 0x80, 0, 0, 0]))).map PressRes.stored
      = some (hotpRec ++ [0xFF, 0xFF, 0xFF, 0xFF, 0x80, 0, 0, 1]) ∧
    imf_spec_verbatim [0xFF, 0xFF, 0xFF, 0xFF, 0x80, 0, 0, 1]
      ≠ imf_spec_verbatim [0, 0, 0, 0, 0x7F, 0xFF, 0xFF, 0xFF] + 2 := by
  refine ⟨by decide, by decide, by decide⟩

end PicoOtp
